import Mathlib

/-!
Verification of the offline-storage permission and download pre-flight logic
(`storage-permission-service.ts` and `OfflineDownloadManager.tsx`).

The host browser capabilities (navigator.storage, the Cache API, localStorage)
are modelled as explicit environment records whose fallible calls return
`Except Unit`.  Each service method is translated into a pure Lean function of
such an environment; instrumented result records expose, besides the returned
value, the observable side effects (host calls issued, storage writes
performed) that the claims speak about.
-/

deriving instance DecidableEq for Except

/-- Result of `navigator.storage.estimate()`: `quota` and `usage` may each be
absent (`undefined` in JS, handled by `|| 0` in the source). -/
structure StorageEstimate where
  quota : Option Nat
  usage : Option Nat
  deriving DecidableEq

/-- One host snapshot backing a single quota probe: the outcomes that
`navigator.storage.estimate()` and `navigator.storage.persisted()` would
deliver if called now.  A rejected promise is `.error ()`. -/
structure HostEnv where
  storageEstimate : Except Unit StorageEstimate
  storagePersisted : Except Unit Bool
  deriving DecidableEq

/-- The record returned by `getStoragePermissionStatus`.  `available` is the
raw signed difference `quota - usage`, hence `Int`. -/
structure StorageStatus where
  persistent : Bool
  quota : Nat
  usage : Nat
  available : Int
  deriving DecidableEq

/-- `getStoragePermissionStatus`: probes estimate and persisted flag; on any
host failure the catch block returns the zeroed snapshot. -/
def getStoragePermissionStatus (env : HostEnv) : StorageStatus :=
  match env.storageEstimate, env.storagePersisted with
  | .ok e, .ok p =>
      let quota := e.quota.getD 0
      let usage := e.usage.getD 0
      { persistent := p, quota := quota, usage := usage,
        available := (quota : Int) - (usage : Int) }
  | _, _ =>
      { persistent := false, quota := 0, usage := 0, available := 0 }

/-- The record returned by `checkAvailableSpace`. -/
structure SpaceCheck where
  hasEnoughSpace : Bool
  availableBytes : Int
  requiredBytes : Int
  shortageBytes : Int
  deriving DecidableEq

/-- `checkAvailableSpace`: fresh probe, then
`hasEnoughSpace = available >= required`,
`shortageBytes = hasEnoughSpace ? 0 : required - available`.
(The surrounding try/catch in the source is unreachable because
`getStoragePermissionStatus` never throws.) -/
def checkAvailableSpace (env : HostEnv) (requiredBytes : Int) : SpaceCheck :=
  let status := getStoragePermissionStatus env
  let hasEnoughSpace : Bool := decide (requiredBytes ≤ status.available)
  let shortageBytes : Int :=
    if hasEnoughSpace then 0 else requiredBytes - status.available
  { hasEnoughSpace := hasEnoughSpace,
    availableBytes := status.available,
    requiredBytes := requiredBytes,
    shortageBytes := shortageBytes }

/-- An item as consumed by `estimateMultipleChaptersSize`. -/
structure Chapter where
  verses_count : Nat
  deriving DecidableEq

/-- `estimateChapterSize`: 500 bytes per verse plus 1000 bytes of chapter
metadata. -/
def estimateChapterSize (versesCount : Nat) : Nat :=
  versesCount * 500 + 1000

/-- `estimateMultipleChaptersSize`: `reduce` with initial accumulator 0. -/
def estimateMultipleChaptersSize (chapters : List Chapter) : Nat :=
  chapters.foldl (fun total chapter => total + estimateChapterSize chapter.verses_count) 0

theorem estimateMultipleChaptersSize_foldl_acc
    (chs : List Chapter) (acc : Nat) :
    chs.foldl (fun total chapter => total + estimateChapterSize chapter.verses_count) acc
      = acc + (chs.map (fun c => estimateChapterSize c.verses_count)).sum := by
  induction chs generalizing acc with
  | nil => simp
  | cons c rest ih =>
      simp only [List.foldl_cons, List.map_cons, List.sum_cons, ih]
      omega

/-- Whether `p` is an initial segment of `s` (character lists). -/
def charsHasPre : List Char → List Char → Bool
  | [], _ => true
  | _ :: _, [] => false
  | p :: ps, c :: cs => p == c && charsHasPre ps cs

/-- Whether `pat` occurs contiguously inside `s` (character lists). -/
def charsHasSub (pat : List Char) : List Char → Bool
  | [] => pat.isEmpty
  | c :: cs => charsHasPre pat (c :: cs) || charsHasSub pat cs

/-- JavaScript `s.includes(pat)`. -/
def strIncludes (s pat : String) : Bool :=
  charsHasSub pat.data s.data

/-- `cacheName.includes('old') || cacheName.includes('temp')`. -/
def isStaleCacheName (name : String) : Bool :=
  strIncludes name "old" || strIncludes name "temp"

/-- `key.includes('temp-') || key.includes('cache-')`. -/
def isTempKey (key : String) : Bool :=
  strIncludes key "temp-" || strIncludes key "cache-"

/-- Host surface used by `cleanupOldData`: the Cache API (presence flag,
`caches.keys()`, `caches.delete(name)`) and the localStorage key list with
`removeItem`.  Each call that can throw returns `Except Unit`. -/
structure CleanupEnv where
  hasCaches : Bool
  cacheKeys : Except Unit (List String)
  cacheDelete : String → Except Unit Unit
  localKeys : List String
  removeItem : String → Except Unit Unit

/-- Outcome of one deletion loop: `ok` carries the bytes added to the tally
and the entries actually deleted; `failed` carries the tally and deletions
performed before the throw (the side effects persist, the tally is lost when
the exception reaches the outer catch). -/
inductive PassOutcome where
  | ok (freed : Nat) (deleted : List String)
  | failed (freed : Nat) (deleted : List String)
  deriving DecidableEq

/-- The `for (const cacheName of cacheNames)` loop: each stale name is
deleted via the host and credits 1 MB; a throwing `caches.delete` aborts the
rest of the loop. -/
def runCachePass (env : CleanupEnv) : List String → PassOutcome
  | [] => .ok 0 []
  | name :: rest =>
    if isStaleCacheName name then
      match env.cacheDelete name with
      | .error _ => .failed 0 []
      | .ok _ =>
        match runCachePass env rest with
        | .ok f d => .ok (1048576 + f) (name :: d)
        | .failed f d => .failed (1048576 + f) (name :: d)
    else runCachePass env rest

/-- The `keysToRemove.forEach` loop: each key is removed and credits 1 KB; a
throwing `removeItem` aborts the rest of the loop. -/
def runKeysPass (env : CleanupEnv) : List String → PassOutcome
  | [] => .ok 0 []
  | key :: rest =>
    match env.removeItem key with
    | .error _ => .failed 0 []
    | .ok _ =>
      match runKeysPass env rest with
      | .ok f d => .ok (1024 + f) (key :: d)
      | .failed f d => .failed (1024 + f) (key :: d)

/-- The cache-cleaning phase: guarded by `'caches' in window`; `caches.keys()`
itself may throw, in which case no deletion happens. -/
def cleanupCachePhase (env : CleanupEnv) : PassOutcome :=
  if env.hasCaches then
    match env.cacheKeys with
    | .error _ => .failed 0 []
    | .ok names => runCachePass env names
  else .ok 0 []

/-- Observable outcome of one `cleanupOldData` call: the returned byte count,
the cache buckets and localStorage keys actually deleted, and whether the
single outer catch fired. -/
structure CleanupRun where
  returnedBytes : Nat
  deletedCaches : List String
  removedKeys : List String
  errored : Bool
  deriving DecidableEq

/-- `cleanupOldData`: one try/catch wraps the whole pass; the catch returns 0.
There is no per-entry handler, so a throw anywhere skips everything after it
(including the whole localStorage phase when a cache deletion throws) and the
accumulated `freedBytes` tally is discarded. -/
def cleanupOldData (env : CleanupEnv) : CleanupRun :=
  match cleanupCachePhase env with
  | .failed _ d =>
      { returnedBytes := 0, deletedCaches := d, removedKeys := [], errored := true }
  | .ok cacheFreed cacheDeleted =>
      match runKeysPass env (env.localKeys.filter isTempKey) with
      | .failed _ rk =>
          { returnedBytes := 0, deletedCaches := cacheDeleted, removedKeys := rk,
            errored := true }
      | .ok keyFreed removedK =>
          { returnedBytes := cacheFreed + keyFreed, deletedCaches := cacheDeleted,
            removedKeys := removedK, errored := false }

theorem runCachePass_ok_freed (env : CleanupEnv) :
    ∀ (names : List String) (f : Nat) (d : List String),
      runCachePass env names = .ok f d → f = 1048576 * d.length := by
  intro names
  induction names with
  | nil =>
      intro f d h
      simp only [runCachePass, PassOutcome.ok.injEq] at h
      obtain ⟨hf, hd⟩ := h
      subst hf; subst hd
      simp
  | cons name rest ih =>
      intro f d h
      by_cases hs : isStaleCacheName name
      · simp only [runCachePass, hs, if_true] at h
        cases hdel : env.cacheDelete name with
        | error e => rw [hdel] at h; exact absurd h (by simp)
        | ok u =>
            rw [hdel] at h
            cases hrec : runCachePass env rest with
            | ok f2 d2 =>
                rw [hrec] at h
                simp only [PassOutcome.ok.injEq] at h
                obtain ⟨hf, hd⟩ := h
                have := ih f2 d2 hrec
                subst hf; subst hd
                simp [this]
                ring
            | failed f2 d2 =>
                rw [hrec] at h
                exact absurd h (by simp)
      · simp only [runCachePass, hs, if_false] at h
        exact ih f d h

theorem runKeysPass_ok_freed (env : CleanupEnv) :
    ∀ (keys : List String) (f : Nat) (d : List String),
      runKeysPass env keys = .ok f d → f = 1024 * d.length := by
  intro keys
  induction keys with
  | nil =>
      intro f d h
      simp only [runKeysPass, PassOutcome.ok.injEq] at h
      obtain ⟨hf, hd⟩ := h
      subst hf; subst hd
      simp
  | cons key rest ih =>
      intro f d h
      simp only [runKeysPass] at h
      cases hdel : env.removeItem key with
      | error e => rw [hdel] at h; exact absurd h (by simp)
      | ok u =>
          rw [hdel] at h
          cases hrec : runKeysPass env rest with
          | ok f2 d2 =>
              rw [hrec] at h
              simp only [PassOutcome.ok.injEq] at h
              obtain ⟨hf, hd⟩ := h
              have := ih f2 d2 hrec
              subst hf; subst hd
              simp [this]
              ring
          | failed f2 d2 =>
              rw [hrec] at h
              exact absurd h (by simp)

theorem cleanupCachePhase_ok_freed (env : CleanupEnv) (f : Nat) (d : List String)
    (h : cleanupCachePhase env = .ok f d) : f = 1048576 * d.length := by
  unfold cleanupCachePhase at h
  by_cases hc : env.hasCaches
  · rw [if_pos hc] at h
    cases hk : env.cacheKeys with
    | error e => rw [hk] at h; exact absurd h (by simp)
    | ok names => rw [hk] at h; exact runCachePass_ok_freed env names f d h
  · rw [if_neg hc] at h
    simp only [PassOutcome.ok.injEq] at h
    obtain ⟨hf, hd⟩ := h
    subst hf; subst hd
    simp

/-- Environment of one `canDownloadWithCleanup` call: every space check
re-probes the host, so the check before cleanup and the re-check after
cleanup each get their own snapshot. -/
structure World where
  hostBefore : HostEnv
  cleanupEnv : CleanupEnv
  hostAfter : HostEnv

/-- The record returned by `canDownloadWithCleanup`, instrumented with the
number of `cleanupOldData` invocations and of space checks performed. -/
structure CleanupDecision where
  canDownload : Bool
  needsCleanup : Bool
  availableAfterCleanup : Int
  cleanupInvocations : Nat
  spaceChecks : Nat
  deriving DecidableEq

/-- `canDownloadWithCleanup`: initial check; on success return immediately
with `needsCleanup = false`; otherwise run `cleanupOldData` once and re-check
once. -/
def canDownloadWithCleanup (w : World) (requiredBytes : Int) : CleanupDecision :=
  let spaceCheck := checkAvailableSpace w.hostBefore requiredBytes
  if spaceCheck.hasEnoughSpace then
    { canDownload := true, needsCleanup := false,
      availableAfterCleanup := spaceCheck.availableBytes,
      cleanupInvocations := 0, spaceChecks := 1 }
  else
    let _freed := cleanupOldData w.cleanupEnv
    let newSpaceCheck := checkAvailableSpace w.hostAfter requiredBytes
    { canDownload := newSpaceCheck.hasEnoughSpace, needsCleanup := true,
      availableAfterCleanup := newSpaceCheck.availableBytes,
      cleanupInvocations := 1, spaceChecks := 2 }

/-- The cleanup environment used by the counterexample to claim C3: three
stale cache buckets, where deleting the second one throws. -/
def cexCleanupEnv : CleanupEnv :=
  { hasCaches := true,
    cacheKeys := .ok ["old-a", "old-b", "old-c"],
    cacheDelete := fun n => if n = "old-b" then .error () else .ok (),
    localKeys := ["temp-x"],
    removeItem := fun _ => .ok () }

/-- Environment of one `requestPersistentStorage` call:
`storageAPISupported` is the result of the feature test, `persisted` and
`persist` the outcomes of the two `navigator.storage` calls, `now` the value
of `new Date().toISOString()`. -/
structure PersistEnv where
  storageAPISupported : Bool
  persisted : Except Unit Bool
  persist : Except Unit Bool
  now : String
  deriving DecidableEq

/-- `isStorageAPISupported`: the feature test on `navigator.storage`. -/
def isStorageAPISupported (env : PersistEnv) : Bool :=
  env.storageAPISupported

/-- Observable outcome of one `requestPersistentStorage` call: the returned
boolean, the `localStorage.setItem` writes performed in order, and whether
`navigator.storage.persist()` was actually called. -/
structure PersistResult where
  returned : Bool
  writes : List (String × String)
  persistRequested : Bool
  deriving DecidableEq

/-- `requestPersistentStorage`: unsupported API returns false; an already
persistent state short-circuits to true; otherwise `persist()` is issued and
on `true` both the outcome flag and the date are written, on `false` only the
outcome flag; any thrown host call is caught and yields false. -/
def requestPersistentStorage (env : PersistEnv) : PersistResult :=
  if !(isStorageAPISupported env) then
    { returned := false, writes := [], persistRequested := false }
  else
    match env.persisted with
    | .error _ => { returned := false, writes := [], persistRequested := false }
    | .ok true => { returned := true, writes := [], persistRequested := false }
    | .ok false =>
        match env.persist with
        | .error _ => { returned := false, writes := [], persistRequested := true }
        | .ok true =>
            { returned := true,
              writes := [("storage-permission-granted", "true"),
                         ("storage-permission-date", env.now)],
              persistRequested := true }
        | .ok false =>
            { returned := false,
              writes := [("storage-permission-granted", "false")],
              persistRequested := true }

/-- The environment used by the counterexample to claim C6: supported API,
not yet persistent, and the host denies the grant. -/
def cexPersistEnv : PersistEnv :=
  { storageAPISupported := true,
    persisted := .ok false,
    persist := .ok false,
    now := "2024-01-01T00:00:00.000Z" }

/-- Environment of one `checkStorageBeforeDownload` / `handleDownload` run in
`OfflineDownloadManager`: component state (selection, connectivity, estimated
size) plus one host snapshot per quota probe the run can perform, in source
order — `hostA` for the initial space check, `hostB`/`hostC` for the two
checks inside `canDownloadWithCleanup`, `hostD` for the persistence check.
`downloadRegistryAdds` — Modelled from the spec: the registry entries that
`offlineStorageService.downloadMultipleChapters` (a collaborator whose code is
not part of this repository slice) would add if it were invoked; per the
spec, the orchestrator calls `OfflineRegistry.add` only inside that download
sequence. -/
structure ManagerEnv where
  selectedChapters : List Nat
  isOnline : Bool
  estimatedDownloadSize : Int
  hostA : HostEnv
  hostB : HostEnv
  cleanupEnv : CleanupEnv
  hostC : HostEnv
  hostD : HostEnv
  downloadRegistryAdds : List Nat

/-- Observable outcome of `checkStorageBeforeDownload`: the returned boolean
and which user-facing reactions fired. -/
structure ManagerOutcome where
  proceed : Bool
  openedPermissionDialog : Bool
  toastNoSelection : Bool
  toastOffline : Bool
  toastNoSpace : Bool
  deriving DecidableEq

/-- `checkStorageBeforeDownload`: empty selection and offline states fail
fast; then the space check (with a cleanup-and-retry attempt on shortage);
then the persistence check, which opens the permission dialog and returns
false when durable storage is not granted. -/
def checkStorageBeforeDownload (env : ManagerEnv) : ManagerOutcome :=
  if env.selectedChapters.isEmpty then
    { proceed := false, openedPermissionDialog := false,
      toastNoSelection := true, toastOffline := false, toastNoSpace := false }
  else if !env.isOnline then
    { proceed := false, openedPermissionDialog := false,
      toastNoSelection := false, toastOffline := true, toastNoSpace := false }
  else
    let spaceCheck := checkAvailableSpace env.hostA env.estimatedDownloadSize
    let spaceVerdict : Option ManagerOutcome :=
      if spaceCheck.hasEnoughSpace then none
      else
        let cleanupResult := canDownloadWithCleanup
          { hostBefore := env.hostB, cleanupEnv := env.cleanupEnv,
            hostAfter := env.hostC }
          env.estimatedDownloadSize
        if cleanupResult.canDownload then none
        else some
          { proceed := false, openedPermissionDialog := true,
            toastNoSelection := false, toastOffline := false, toastNoSpace := true }
    match spaceVerdict with
    | some out => out
    | none =>
        let storageStatus := getStoragePermissionStatus env.hostD
        if !storageStatus.persistent then
          { proceed := false, openedPermissionDialog := true,
            toastNoSelection := false, toastOffline := false, toastNoSpace := false }
        else
          { proceed := true, openedPermissionDialog := false,
            toastNoSelection := false, toastOffline := false, toastNoSpace := false }

/-- Observable outcome of `handleDownload`: whether the per-item download
sequence (`downloadMultipleChapters`) was invoked and the registry entries
added as a consequence. -/
structure HandleOutcome where
  downloadInvoked : Bool
  registryAdds : List Nat
  deriving DecidableEq

/-- `handleDownload`: returns immediately when `checkStorageBeforeDownload`
says no; only otherwise does it start the download sequence (which is where
registry entries get added). -/
def handleDownload (env : ManagerEnv) : HandleOutcome :=
  if (checkStorageBeforeDownload env).proceed then
    { downloadInvoked := true, registryAdds := env.downloadRegistryAdds }
  else
    { downloadInvoked := false, registryAdds := [] }

/-- Claim C1: for every requiredBytes, `checkAvailableSpace` computes
`shortageBytes = max 0 (requiredBytes - available)` from a fresh quota probe,
and `hasEnoughSpace` holds exactly when `shortageBytes = 0`. -/
theorem C1_check_available_space_consistent (env : HostEnv) (r : Int) :
    (checkAvailableSpace env r).shortageBytes
        = max 0 (r - (getStoragePermissionStatus env).available)
    ∧ (checkAvailableSpace env r).hasEnoughSpace
        = decide ((checkAvailableSpace env r).shortageBytes = 0)
    ∧ (checkAvailableSpace env r).availableBytes
        = (getStoragePermissionStatus env).available
    ∧ (checkAvailableSpace env r).requiredBytes = r := by
  have havail : (checkAvailableSpace env r).availableBytes
      = (getStoragePermissionStatus env).available := rfl
  have hreq : (checkAvailableSpace env r).requiredBytes = r := rfl
  by_cases hle : r ≤ (getStoragePermissionStatus env).available
  · have hshort : (checkAvailableSpace env r).shortageBytes = 0 := by
      simp [checkAvailableSpace, hle]
    have hhas : (checkAvailableSpace env r).hasEnoughSpace = true := by
      simp [checkAvailableSpace, hle]
    rw [hshort, hhas, havail, hreq]
    exact ⟨by omega, by simp, rfl, rfl⟩
  · have hshort : (checkAvailableSpace env r).shortageBytes
        = r - (getStoragePermissionStatus env).available := by
      simp [checkAvailableSpace, hle]
    have hhas : (checkAvailableSpace env r).hasEnoughSpace = false := by
      simp [checkAvailableSpace, hle]
    rw [hshort, hhas, havail, hreq]
    refine ⟨by omega, ?_, rfl, rfl⟩
    have hne : r - (getStoragePermissionStatus env).available ≠ 0 := by omega
    simp [hne]

/-- Claim C2: `estimateMultipleChaptersSize` is the sum of the per-item
estimates (in particular additive on a two-item list), and
`estimateChapterSize` is monotonic in the unit count. -/
theorem C2_estimate_additive_and_monotone :
    (∀ (u1 u2 : Nat),
      estimateMultipleChaptersSize [{ verses_count := u1 }, { verses_count := u2 }]
        = estimateChapterSize u1 + estimateChapterSize u2)
    ∧ (∀ (chs : List Chapter),
      estimateMultipleChaptersSize chs
        = (chs.map (fun c => estimateChapterSize c.verses_count)).sum)
    ∧ (∀ (u d : Nat), estimateChapterSize u ≤ estimateChapterSize (u + d)) := by
  refine ⟨?_, ?_, ?_⟩
  · intro u1 u2
    simp [estimateMultipleChaptersSize, List.foldl]
  · intro chs
    simpa using estimateMultipleChaptersSize_foldl_acc chs 0
  · intro u d
    simp only [estimateChapterSize]
    omega

/-- Claim C9: the estimate is never below the fixed 1000-byte overhead;
at zero units it is exactly 1000, hence strictly positive. -/
theorem C9_estimate_has_fixed_overhead :
    estimateChapterSize 0 = 1000
    ∧ (∀ u : Nat, 1000 ≤ estimateChapterSize u)
    ∧ (∀ u : Nat, 0 < estimateChapterSize u) := by
  refine ⟨rfl, ?_, ?_⟩ <;> intro u <;> simp [estimateChapterSize]

/-- Claim C3 is false on the code: with stale buckets old-a, old-b, old-c
where deleting old-b throws, the single outer catch aborts the pass after
old-a — old-c is stale yet never deleted, the localStorage key temp-x is
matched by the filter yet never removed, and the 1 MB credited for old-a is
not reported (the call returns 0). -/
theorem C3_counterexample_single_failure_aborts_pass :
    (cleanupOldData cexCleanupEnv).returnedBytes = 0
    ∧ (cleanupOldData cexCleanupEnv).deletedCaches = ["old-a"]
    ∧ (cleanupOldData cexCleanupEnv).removedKeys = []
    ∧ (cleanupOldData cexCleanupEnv).errored = true
    ∧ isStaleCacheName "old-c" = true
    ∧ isTempKey "temp-x" = true := by
  decide

/-- Claim C3, amended: `cleanupOldData` never propagates an error (the single
whole-pass catch swallows it), but a failure on any individual bucket or key
aborts the processing of everything after it and the whole call reports 0
bytes freed, discarding the tally of entries already processed; only an
error-free pass reports the full per-entry accounting (1 MB per deleted
bucket, 1 KB per removed key). -/
theorem C3_cleanup_error_aborts_and_reports_zero (env : CleanupEnv) :
    (cleanupOldData env).returnedBytes
      = if (cleanupOldData env).errored then 0
        else 1048576 * (cleanupOldData env).deletedCaches.length
          + 1024 * (cleanupOldData env).removedKeys.length := by
  unfold cleanupOldData
  cases hc : cleanupCachePhase env with
  | failed f d => simp
  | ok f d =>
      cases hk : runKeysPass env (env.localKeys.filter isTempKey) with
      | failed f2 d2 => simp
      | ok f2 d2 =>
          have h1 := cleanupCachePhase_ok_freed env f d hc
          have h2 := runKeysPass_ok_freed env _ f2 d2 hk
          simp [h1, h2]

/-- Claim C4: `canDownloadWithCleanup` never invokes cleanup when the initial
check passes (returning canDownload = true, needsCleanup = false), and
otherwise invokes cleanup exactly once and re-checks exactly once (two space
checks in total), with the final verdict taken from the re-check. -/
theorem C4_cleanup_invoked_once_at_most (w : World) (r : Int) :
    (canDownloadWithCleanup w r).needsCleanup
        = !(checkAvailableSpace w.hostBefore r).hasEnoughSpace
    ∧ (canDownloadWithCleanup w r).cleanupInvocations
        = (if (checkAvailableSpace w.hostBefore r).hasEnoughSpace then 0 else 1)
    ∧ (canDownloadWithCleanup w r).spaceChecks
        = (if (checkAvailableSpace w.hostBefore r).hasEnoughSpace then 1 else 2)
    ∧ (canDownloadWithCleanup w r).canDownload
        = (if (checkAvailableSpace w.hostBefore r).hasEnoughSpace then true
            else (checkAvailableSpace w.hostAfter r).hasEnoughSpace)
    ∧ (checkAvailableSpace w.hostBefore r).hasEnoughSpace
        = decide ((getStoragePermissionStatus w.hostBefore).available ≥ r) := by
  by_cases h : (checkAvailableSpace w.hostBefore r).hasEnoughSpace
  · simp [canDownloadWithCleanup, h]
    exact of_decide_eq_true h
  · simp only [Bool.not_eq_true] at h
    simp [canDownloadWithCleanup, h]
    have h2 : ¬ (r ≤ (getStoragePermissionStatus w.hostBefore).available) :=
      of_decide_eq_false h
    omega

/-- Claim C10: `needsCleanup` is true exactly when the initial space check
reported insufficient space, and does not depend on the cleanup environment
or on the snapshot seen by the re-check (hence not on whether cleanup freed
enough space for the retry to succeed). -/
theorem C10_needs_cleanup_tracks_initial_check
    (hb : HostEnv) (ce ce2 : CleanupEnv) (ha ha2 : HostEnv) (r : Int) :
    (canDownloadWithCleanup
        { hostBefore := hb, cleanupEnv := ce, hostAfter := ha } r).needsCleanup
      = (canDownloadWithCleanup
          { hostBefore := hb, cleanupEnv := ce2, hostAfter := ha2 } r).needsCleanup
    ∧ (canDownloadWithCleanup
        { hostBefore := hb, cleanupEnv := ce, hostAfter := ha } r).needsCleanup
      = !(checkAvailableSpace hb r).hasEnoughSpace := by
  by_cases h : (checkAvailableSpace hb r).hasEnoughSpace
  · simp [canDownloadWithCleanup, h]
  · simp only [Bool.not_eq_true] at h
    simp [canDownloadWithCleanup, h]

/-- Claim C5: whenever `navigator.storage.estimate()` or
`navigator.storage.persisted()` fails, `getStoragePermissionStatus` returns
the zeroed snapshot instead of propagating the error — for any values of the
remaining host fields. -/
theorem C5_probe_failure_yields_zeroed_snapshot (env : HostEnv) (e e2 : Unit) :
    getStoragePermissionStatus { env with storageEstimate := .error e }
      = { persistent := false, quota := 0, usage := 0, available := 0 }
    ∧ getStoragePermissionStatus { env with storagePersisted := .error e2 }
      = { persistent := false, quota := 0, usage := 0, available := 0 } := by
  constructor
  · cases env.storagePersisted <;> rfl
  · cases env.storageEstimate <;> rfl

/-- Claim C6 is false on the code: with a supported API, no prior persistence
and a denied grant, the request is issued (`persistRequested = true`) and the
boolean outcome is written, but no `storage-permission-date` entry is written
— the timestamp is only recorded in the granted branch. -/
theorem C6_counterexample_denied_grant_records_no_date :
    (requestPersistentStorage cexPersistEnv).persistRequested = true
    ∧ (requestPersistentStorage cexPersistEnv).writes
        = [("storage-permission-granted", "false")]
    ∧ (requestPersistentStorage cexPersistEnv).writes.contains
        ("storage-permission-date", cexPersistEnv.now) = false := by
  decide

/-- Claim C6, amended: whenever `requestPersistentStorage` issues a grant
request that resolves with outcome `b`, it records the boolean outcome in the
persisted decision record regardless of `b`, but records the timestamp only
when the grant was granted (`b = true`), not when it was denied. -/
theorem C6_grant_request_records_outcome (b : Bool) (now2 : String) :
    (requestPersistentStorage
        { storageAPISupported := true, persisted := .ok false,
          persist := .ok b, now := now2 }).persistRequested = true
    ∧ (requestPersistentStorage
        { storageAPISupported := true, persisted := .ok false,
          persist := .ok b, now := now2 }).writes.contains
        ("storage-permission-granted", if b then "true" else "false") = true
    ∧ (requestPersistentStorage
        { storageAPISupported := true, persisted := .ok false,
          persist := .ok b, now := now2 }).writes.contains
        ("storage-permission-date", now2) = b := by
  cases b <;> simp [requestPersistentStorage, isStorageAPISupported, List.contains]

/-- Claim C7: with a supported API, if durable storage is already persistent
the call returns true, performs no writes, and never issues a grant request —
whatever `persist()` would have answered. -/
theorem C7_already_persistent_short_circuits (pr : Except Unit Bool) (now2 : String) :
    requestPersistentStorage
        { storageAPISupported := true, persisted := .ok true,
          persist := pr, now := now2 }
      = { returned := true, writes := [], persistRequested := false } := by
  rfl

/-- Claim C8: when durable storage is not persistent, the pre-flight check
fails (opening the permission dialog) even with a non-empty selection, an
online connection and sufficient space, so `handleDownload` never invokes the
download sequence and no registry entry is added. -/
theorem C8_no_persistence_aborts_before_fetch (env : ManagerEnv)
    (hsel : env.selectedChapters ≠ [])
    (hon : env.isOnline = true)
    (hspace : (checkAvailableSpace env.hostA env.estimatedDownloadSize).hasEnoughSpace
        = true)
    (hper : (getStoragePermissionStatus env.hostD).persistent = false) :
    (checkStorageBeforeDownload env).proceed = false
    ∧ (checkStorageBeforeDownload env).openedPermissionDialog = true
    ∧ (handleDownload env).downloadInvoked = false
    ∧ (handleDownload env).registryAdds = [] := by
  have hne : env.selectedChapters.isEmpty = false := by
    cases h2 : env.selectedChapters with
    | nil => exact absurd h2 hsel
    | cons a l => rfl
  have hcheck : checkStorageBeforeDownload env =
      { proceed := false, openedPermissionDialog := true,
        toastNoSelection := false, toastOffline := false, toastNoSpace := false } := by
    unfold checkStorageBeforeDownload
    rw [hne, hon]
    simp [hspace, hper]
  refine ⟨by rw [hcheck], by rw [hcheck], ?_, ?_⟩ <;>
    simp [handleDownload, hcheck]

/-- A concrete environment realizing the hypotheses of claim C8: one selected
chapter, online, ample quota, durable storage not persistent. -/
def witnessManagerEnv : ManagerEnv :=
  { selectedChapters := [1],
    isOnline := true,
    estimatedDownloadSize := 1500,
    hostA := { storageEstimate := .ok { quota := some 1000000, usage := some 0 },
               storagePersisted := .ok false },
    hostB := { storageEstimate := .ok { quota := some 1000000, usage := some 0 },
               storagePersisted := .ok false },
    cleanupEnv := { hasCaches := false, cacheKeys := .ok [],
                    cacheDelete := fun _ => .ok (), localKeys := [],
                    removeItem := fun _ => .ok () },
    hostC := { storageEstimate := .ok { quota := some 1000000, usage := some 0 },
               storagePersisted := .ok false },
    hostD := { storageEstimate := .ok { quota := some 1000000, usage := some 0 },
               storagePersisted := .ok false },
    downloadRegistryAdds := [1] }

/-- Witness for claim C8 at a concrete environment. -/
theorem C8_no_persistence_witness :
    (checkStorageBeforeDownload witnessManagerEnv).proceed = false
    ∧ (checkStorageBeforeDownload witnessManagerEnv).openedPermissionDialog = true
    ∧ (handleDownload witnessManagerEnv).downloadInvoked = false
    ∧ (handleDownload witnessManagerEnv).registryAdds = [] :=
  C8_no_persistence_aborts_before_fetch witnessManagerEnv
    (by decide) rfl (by decide) (by decide)
